import Mathlib

/-!
Shallow embedding of the flightbriefing repository (app.py, briefer.py,
weather.py) and proofs about its specification claims.

The reasoning engine (Anthropic API) and the network (requests library) are
external collaborators; they are modelled as oracles supplied to the embedded
functions: an `Env` mapping each HTTP request to an outcome, and a script of
engine responses driving the orchestration loop.
-/

set_option maxRecDepth 100000

namespace FlightBriefing

/-- A single quote character, written with an escape so the plain character
does not appear inside string literals. -/
def sq : String := "\x27"

/-- Concatenation of a list of strings. -/
def strConcat : List String → String
  | [] => ""
  | s :: ss => s ++ strConcat ss

/-- Python values that can appear as JSON-decoded tool arguments
(`block.input` values) or as query parameters. -/
inductive Arg
  | str (s : String)
  | int (n : Int)
  | list (xs : List Arg)
deriving Repr

/-- Python truthiness for the argument values we model
(`""`, `0` and `[]` are falsy). -/
def Arg.truthy : Arg → Bool
  | .str s => !s.isEmpty
  | .int n => n != 0
  | .list xs => !xs.isEmpty

/-- The Python type name of an argument value, as used in error messages. -/
def Arg.typeName : Arg → String
  | .str _ => "str"
  | .int _ => "int"
  | .list _ => "list"

/-- Python exceptions that the embedded code can raise. -/
inductive PyErr
  | typeError (msg : String)
  | keyError (key : String)
  | attributeError (msg : String)
  | indexError (msg : String)
deriving Repr

/-- `str(e)` for the embedded exceptions. `str` of a `KeyError` shows the
missing key in quotes. -/
def PyErr.toMessage : PyErr → String
  | .typeError m => m
  | .keyError k => sq ++ k ++ sq
  | .attributeError m => m
  | .indexError m => m

/-- An HTTP request issued through `requests.get`: url, query parameters,
headers, and the `timeout=` argument in seconds. -/
structure Request where
  url : String
  params : List (String × Arg)
  headers : List (String × String)
  timeoutSec : Nat
deriving Repr

/-- Outcome of one network request, as observed by the Python code:
a 2xx body, a `Timeout`, an `HTTPError` raised by `raise_for_status`,
a `ConnectionError`, or any other exception. -/
inductive HttpOutcome
  | success (text : String)
  | timeout
  | httpError (status : Nat) (body : String)
  | connError
  | exc (msg : String)
deriving Repr

/-- JSON values, as returned by `json.loads` / `resp.json()`. -/
inductive Json
  | null
  | bool (b : Bool)
  | num (n : Int)
  | str (s : String)
  | arr (xs : List Json)
  | obj (fields : List (String × Json))
deriving Repr

/-- The external world: what each HTTP request returns, and how the JSON
library parses a given text. -/
structure Env where
  http : Request → HttpOutcome
  jsonLoads : String → Except String Json

/-- A Python computation: it may raise an exception, and it records the
HTTP requests it performs, in order. -/
def PyM (α : Type) : Type := List Request → Except PyErr α × List Request

instance : Monad PyM where
  pure a := fun log => (Except.ok a, log)
  bind m f := fun log =>
    match m log with
    | (Except.ok a, l2) => f a l2
    | (Except.error e, l2) => (Except.error e, l2)

/-- Raise a Python exception. -/
def pyRaise {α : Type} (e : PyErr) : PyM α := fun log => (Except.error e, log)

/-- Perform one `requests.get`, recording the request in the log. -/
def doRequest (env : Env) (r : Request) : PyM HttpOutcome :=
  fun log => (Except.ok (env.http r), log ++ [r])

/-- Run a Python computation on a given request log. -/
def runPy {α : Type} (m : PyM α) (log : List Request) :
    Except PyErr α × List Request := m log

/-- Turn a pure `Except` result into a Python computation. -/
def liftExcept {α : Type} : Except PyErr α → PyM α
  | .ok a => pure a
  | .error e => pyRaise e

/-- Python whitespace, as stripped by `str.strip()`. -/
def isPySpace (c : Char) : Bool :=
  c = ' ' || c = '\t' || c = '\n' || c = '\r' || c = '\x0b' || c = '\x0c'

/-- `s.strip()`: remove leading and trailing whitespace. Implemented over
the character list so that it evaluates by kernel reduction. -/
def pyStrip (s : String) : String :=
  String.mk (((s.toList.dropWhile isPySpace).reverse.dropWhile isPySpace).reverse)

/-- `s.upper()`. Implemented over the character list so that it evaluates
by kernel reduction. -/
def pyUpper (s : String) : String :=
  String.mk (s.toList.map Char.toUpper)

/-- Evaluate a Python generator expression `(f x for x in xs)` left to
right, stopping at the first exception. -/
def mapPyM {α β : Type} (f : α → PyM β) : List α → PyM (List β)
  | [] => pure []
  | x :: xs => do
      let b ← f x
      let bs ← mapPyM f xs
      pure (b :: bs)

/-! ## weather.py -/

def BASE_URL : String := "https://aviationweather.gov/api/data"

def NWS_BASE : String := "https://api.weather.gov"

def NWS_HEADERS : List (String × String) :=
  [("User-Agent", "FlightBriefing/1.0 (personal aviation planning tool)"),
   ("Accept", "application/geo+json")]

/-- `TIMEOUT = 15  # seconds` -/
def TIMEOUT : Nat := 15

mutual

/-- `json.dumps` (string-escaping fidelity is not needed by any claim). -/
def jsonDumps : Json → String
  | .null => "null"
  | .bool true => "true"
  | .bool false => "false"
  | .num n => toString n
  | .str s => "\"" ++ s ++ "\""
  | .arr xs => "[" ++ jsonDumpsList xs ++ "]"
  | .obj fs => "\x7b" ++ jsonDumpsFields fs ++ "\x7d"

/-- `json.dumps` items of a list, with the default `", "` separator. -/
def jsonDumpsList : List Json → String
  | [] => ""
  | [x] => jsonDumps x
  | x :: xs => jsonDumps x ++ ", " ++ jsonDumpsList xs

/-- `json.dumps` fields of an object, with the default `", "` and `": "`
separators. -/
def jsonDumpsFields : List (String × Json) → String
  | [] => ""
  | [(k, v)] => "\"" ++ k ++ "\": " ++ jsonDumps v
  | (k, v) :: fs => "\"" ++ k ++ "\": " ++ jsonDumps v ++ ", " ++ jsonDumpsFields fs

end

/-- The request `_get` issues for a given endpoint and parameter set. -/
def awRequest (endpoint : String) (params : List (String × Arg)) : Request :=
  { url := BASE_URL ++ "/" ++ endpoint
    params := params
    headers := []
    timeoutSec := TIMEOUT }

/-- `_get(endpoint, params)` from weather.py: one GET against
aviationweather.gov; every failure is converted to an error string. -/
def _get (env : Env) (endpoint : String) (params : List (String × Arg)) :
    PyM String := do
  let out ← doRequest env (awRequest endpoint params)
  match out with
  | .success text =>
      let t := pyStrip text
      if t.isEmpty then pure (jsonDumps (.arr []))
      else pure t
  | .timeout =>
      pure ("Error: Request to " ++ endpoint ++ " timed out after "
        ++ toString TIMEOUT ++ " seconds.")
  | .httpError status body =>
      pure ("Error: HTTP " ++ toString status ++ " from " ++ endpoint ++ ": "
        ++ body.take 200)
  | .connError =>
      pure "Error: Could not connect to aviationweather.gov. Check network connectivity."
  | .exc m =>
      pure ("Error: Unexpected error fetching " ++ endpoint ++ ": " ++ m)

/-- `s.upper().strip()` on a dynamically typed value; raises
`AttributeError` when the value is not a string. -/
def pyUpperStrip : Arg → PyM String
  | .str s => pure (pyStrip (pyUpper s))
  | a => pyRaise (.attributeError
      (sq ++ a.typeName ++ sq ++ " object has no attribute " ++ sq ++ "upper" ++ sq))

/-- `for s in x`: lists iterate their elements, strings iterate their
characters (as one-character strings), anything else raises `TypeError`. -/
def pyIter : Arg → PyM (List Arg)
  | .list xs => pure xs
  | .str s => pure (s.toList.map fun c => Arg.str (String.singleton c))
  | a => pyRaise (.typeError
      (sq ++ a.typeName ++ sq ++ " object is not iterable"))

/-- `get_metar(stations)` from weather.py. -/
def get_metar (env : Env) (stations : Arg) : PyM String := do
  if !stations.truthy then
    pure "Error: No station identifiers provided for METAR request."
  else
    let elems ← pyIter stations
    let parts ← mapPyM pyUpperStrip elems
    let ids := String.intercalate "," parts
    _get env "metar" [("ids", .str ids), ("format", .str "json"), ("hours", .int 2)]

/-- `get_taf(stations)` from weather.py. -/
def get_taf (env : Env) (stations : Arg) : PyM String := do
  if !stations.truthy then
    pure "Error: No station identifiers provided for TAF request."
  else
    let elems ← pyIter stations
    let parts ← mapPyM pyUpperStrip elems
    let ids := String.intercalate "," parts
    _get env "taf" [("ids", .str ids), ("format", .str "json")]

/-- `get_pireps(station, distance_nm=100)` from weather.py. -/
def get_pireps (env : Env) (station : Arg) (distance_nm : Arg) : PyM String := do
  if !station.truthy then
    pure "Error: No station identifier provided for PIREP request."
  else
    let idv ← pyUpperStrip station
    _get env "pirep"
      [("id", .str idv), ("format", .str "json"), ("distance", distance_nm)]

/-- `get_sigmets()` from weather.py. -/
def get_sigmets (env : Env) : PyM String :=
  _get env "sigmet" [("format", .str "json")]

/-- `get_airmets()` from weather.py. -/
def get_airmets (env : Env) : PyM String :=
  _get env "airmet" [("format", .str "json")]

/-- `get_winds_aloft(stations)` from weather.py. -/
def get_winds_aloft (env : Env) (stations : Arg) : PyM String := do
  if !stations.truthy then
    pure "Error: No station identifiers provided for winds aloft request."
  else
    let elems ← pyIter stations
    let parts ← mapPyM pyUpperStrip elems
    let ids := String.intercalate "," parts
    _get env "windtemp"
      [("region", .str "all"), ("level", .str "low"), ("fcst", .str "06"),
       ("format", .str "json"), ("ids", .str ids)]

/-- The request `_nws_get` issues for a given URL. -/
def nwsRequest (url : String) : Request :=
  { url := url, params := [], headers := NWS_HEADERS, timeoutSec := TIMEOUT }

/-- `_nws_get(url)` from weather.py: returns the parsed JSON document
(`Sum.inl`) or an error string (`Sum.inr`). -/
def _nws_get (env : Env) (url : String) : PyM (Json ⊕ String) := do
  let out ← doRequest env (nwsRequest url)
  match out with
  | .success text =>
      match env.jsonLoads text with
      | .ok j => pure (Sum.inl j)
      | .error m => pure (Sum.inr ("Error: Unexpected error from NWS API: " ++ m))
  | .timeout => pure (Sum.inr "Error: NWS API request timed out.")
  | .httpError status body =>
      pure (Sum.inr ("Error: HTTP " ++ toString status ++ " from NWS API: "
        ++ body.take 200))
  | .connError =>
      pure (Sum.inr "Error: Could not connect to api.weather.gov. Check network connectivity.")
  | .exc m => pure (Sum.inr ("Error: Unexpected error from NWS API: " ++ m))

/-- The Python type name of a JSON value, as used in error messages. -/
def Json.pyTypeName : Json → String
  | .null => "NoneType"
  | .bool _ => "bool"
  | .num _ => "int"
  | .str _ => "str"
  | .arr _ => "list"
  | .obj _ => "dict"

/-- Python truthiness of a JSON value. -/
def Json.truthy : Json → Bool
  | .null => false
  | .bool b => b
  | .num n => n != 0
  | .str s => !s.isEmpty
  | .arr xs => !xs.isEmpty
  | .obj fs => !fs.isEmpty

/-- `str(x)` for a JSON value (only the scalar cases are ever reached by
the embedded code). -/
def Json.pyStr : Json → String
  | .null => "None"
  | .bool true => "True"
  | .bool false => "False"
  | .num n => toString n
  | .str s => s
  | .arr xs => "[" ++ jsonDumpsList xs ++ "]"
  | .obj fs => "\x7b" ++ jsonDumpsFields fs ++ "\x7d"

/-- `d.get(k, default)`: raises `AttributeError` when the receiver is not a
dict. -/
def jsonGetD (j : Json) (k : String) (dflt : Json) : PyM Json :=
  match j with
  | .obj fs => pure ((fs.lookup k).getD dflt)
  | _ => pyRaise (.attributeError
      (sq ++ j.pyTypeName ++ sq ++ " object has no attribute " ++ sq ++ "get" ++ sq))

/-- `d.get(k)` (default `None`). -/
def jsonGet (j : Json) (k : String) : PyM Json := jsonGetD j k Json.null

/-- `x[0]` on a JSON value. -/
def jsonIndex0 : Json → PyM Json
  | .arr [] => pyRaise (.indexError "list index out of range")
  | .arr (x :: _) => pure x
  | .str s =>
      if s.isEmpty then pyRaise (.indexError "string index out of range")
      else pure (.str (s.take 1))
  | .obj _ => pyRaise (.keyError "0")
  | j => pyRaise (.typeError
      (sq ++ j.pyTypeName ++ sq ++ " object is not subscriptable"))

/-- `x[k]` with a string key on a JSON value. -/
def jsonSubscript (j : Json) (k : String) : PyM Json :=
  match j with
  | .obj fs =>
      match fs.lookup k with
      | some v => pure v
      | none => pyRaise (.keyError k)
  | .arr _ => pyRaise (.typeError "list indices must be integers or slices, not str")
  | .str _ => pyRaise (.typeError "string indices must be integers")
  | _ => pyRaise (.typeError
      (sq ++ j.pyTypeName ++ sq ++ " object is not subscriptable"))

/-- `get_area_forecast_discussion(office="OKX")` from weather.py. -/
def get_area_forecast_discussion (env : Env) (office : Arg) : PyM String := do
  let officeS ← pyUpperStrip office
  let product_list ← _nws_get env
    (NWS_BASE ++ "/products/types/AFD/locations/" ++ officeS)
  match product_list with
  | Sum.inr s => pure s
  | Sum.inl pl => do
    let graph ← jsonGetD pl "@graph" (.arr [])
    if !graph.truthy then
      pure ("No Area Forecast Discussion found for NWS office " ++ officeS ++ ".")
    else do
      let g0 ← jsonIndex0 graph
      let product_id ← jsonSubscript g0 "id"
      let product ← _nws_get env (NWS_BASE ++ "/products/" ++ product_id.pyStr)
      match product with
      | Sum.inr s => pure s
      | Sum.inl p => do
        let text ← jsonGet p "productText"
        if !text.truthy then
          pure ("AFD retrieved for " ++ officeS ++ " but contained no text.")
        else
          pure text.pyStr

/-- `get_extended_forecast(icao)` from weather.py. -/
def get_extended_forecast (env : Env) (icao : Arg) : PyM String := do
  let icaoS ← pyUpperStrip icao
  let metar_raw ← _get env "metar"
    [("ids", .str icaoS), ("format", .str "json"), ("hours", .int 1)]
  match env.jsonLoads metar_raw with
  | .error _ =>
      pure ("Error: Could not parse METAR data to obtain coordinates for "
        ++ icaoS ++ ".")
  | .ok metars =>
    if !metars.truthy then
      pure ("Error: No METAR records found for " ++ icaoS
        ++ "; cannot determine location coordinates.")
    else do
      let m0 ← jsonIndex0 metars
      let lat ← jsonGet m0 "lat"
      let lon ← jsonGet m0 "lon"
      match lat, lon with
      | Json.null, _ =>
          pure ("Error: METAR for " ++ icaoS ++ " did not include coordinates.")
      | _, Json.null =>
          pure ("Error: METAR for " ++ icaoS ++ " did not include coordinates.")
      | latv, lonv => do
        let points ← _nws_get env
          (NWS_BASE ++ "/points/" ++ latv.pyStr ++ "," ++ lonv.pyStr)
        match points with
        | Sum.inr s => pure s
        | Sum.inl pj => do
          let props ← jsonGetD pj "properties" (.obj [])
          let forecast_url ← jsonGetD props "forecast" Json.null
          if !forecast_url.truthy then
            pure ("Error: NWS did not return a forecast URL for " ++ icaoS
              ++ " (" ++ latv.pyStr ++ ", " ++ lonv.pyStr ++ ").")
          else do
            let forecast ← _nws_get env forecast_url.pyStr
            match forecast with
            | Sum.inr s => pure s
            | Sum.inl fj => do
              let props2 ← jsonGetD fj "properties" (.obj [])
              let periods ← jsonGetD props2 "periods" (.arr [])
              if !periods.truthy then
                pure ("No extended forecast periods returned for " ++ icaoS ++ ".")
              else
                pure (jsonDumps periods)

/-- `TOOL_FUNCTIONS` from weather.py: the keys of the name → handler map,
in source order. -/
def TOOL_FUNCTIONS : List String :=
  ["get_metar", "get_taf", "get_pireps", "get_sigmets", "get_airmets",
   "get_winds_aloft", "get_area_forecast_discussion", "get_extended_forecast"]

/-! ## briefer.py — tool status table and executor -/

/-- `TOOL_STATUS` from briefer.py. -/
def TOOL_STATUS : List (String × String) :=
  [("get_metar", "Fetching current conditions…"),
   ("get_taf", "Fetching terminal forecasts…"),
   ("get_pireps", "Checking pilot reports…"),
   ("get_sigmets", "Checking SIGMETs…"),
   ("get_airmets", "Checking AIRMETs…"),
   ("get_winds_aloft", "Fetching winds aloft…"),
   ("get_notams", "Fetching NOTAMs…"),
   ("get_nearby_metars", "Searching nearby airports…"),
   ("calculate_density_altitude", "Computing density altitude…"),
   ("get_area_forecast_discussion", "Reading NWS forecast discussion…"),
   ("get_extended_forecast", "Fetching extended forecast…")]

/-- `TOOL_STATUS.get(name, f"Calling {name}…")`. -/
def statusFor (name : String) : String :=
  (TOOL_STATUS.lookup name).getD ("Calling " ++ name ++ "…")

/-- The keyword parameters of each handler: name and, when present, the
default value (from the `def` signatures in weather.py). -/
def toolParams : String → List (String × Option Arg)
  | "get_metar" => [("stations", none)]
  | "get_taf" => [("stations", none)]
  | "get_pireps" => [("station", none), ("distance_nm", some (.int 100))]
  | "get_sigmets" => []
  | "get_airmets" => []
  | "get_winds_aloft" => [("stations", none)]
  | "get_area_forecast_discussion" => [("office", some (.str "OKX"))]
  | "get_extended_forecast" => [("icao", none)]
  | _ => []

/-- Bind one keyword parameter: the supplied value, else the default, else
a `TypeError` naming the missing required argument. -/
def bindOne (fname : String) (input : List (String × Arg))
    (p : String × Option Arg) : Except PyErr Arg :=
  match input.lookup p.1 with
  | some v => .ok v
  | none =>
      match p.2 with
      | some d => .ok d
      | none => .error (.typeError (fname
          ++ "() missing 1 required positional argument: " ++ sq ++ p.1 ++ sq))

/-- `func(**tool_input)` argument binding: a `TypeError` for an unexpected
keyword or a missing required one, else the bound argument list in
parameter order. -/
def bindArgs (fname : String) (params : List (String × Option Arg))
    (input : List (String × Arg)) : Except PyErr (List Arg) :=
  match input.find? (fun kv => !(params.any fun p => p.1 == kv.1)) with
  | some kv => .error (.typeError (fname
      ++ "() got an unexpected keyword argument " ++ sq ++ kv.1 ++ sq))
  | none => params.mapM (bindOne fname input)

/-- Dispatch a registered tool to its handler with bound arguments. -/
def callTool (env : Env) (name : String) (args : List Arg) : PyM String :=
  match name, args with
  | "get_metar", [st] => get_metar env st
  | "get_taf", [st] => get_taf env st
  | "get_pireps", [st, d] => get_pireps env st d
  | "get_sigmets", [] => get_sigmets env
  | "get_airmets", [] => get_airmets env
  | "get_winds_aloft", [st] => get_winds_aloft env st
  | "get_area_forecast_discussion", [o] => get_area_forecast_discussion env o
  | "get_extended_forecast", [i] => get_extended_forecast env i
  | _, _ => pyRaise (.typeError "dispatch arity mismatch")

/-- Bind the arguments of `tool_input` and run the handler, as the body of
the `try` block in `_execute_tool` does. -/
def runTool (env : Env) (name : String) (input : List (String × Arg)) :
    PyM String := do
  let args ← liftExcept (bindArgs name (toolParams name) input)
  callTool env name args

/-- `_execute_tool(tool_name, tool_input)` from briefer.py: total — every
outcome, including any exception from binding or from the handler, is
normalized to a string (paired here with the HTTP requests performed). -/
def _execute_tool (env : Env) (tool_name : String)
    (tool_input : List (String × Arg)) : String × List Request :=
  if !(TOOL_FUNCTIONS.contains tool_name) then
    ("Error: Unknown tool " ++ sq ++ tool_name ++ sq ++ ".", [])
  else
    match runPy (runTool env tool_name tool_input) [] with
    | (.ok s, log) => (s, log)
    | (.error (.typeError m), log) =>
        ("Error: Invalid arguments for " ++ sq ++ tool_name ++ sq ++ ": " ++ m, log)
    | (.error e, log) =>
        ("Error: Unexpected error in " ++ sq ++ tool_name ++ sq ++ ": "
          ++ e.toMessage, log)

/-! ## briefer.py — conversation data model and orchestration loop -/

/-- Message roles. -/
inductive Role
  | user
  | assistant
deriving DecidableEq, Repr

/-- Content blocks of a message, as exchanged with the reasoning engine. -/
inductive ContentBlock
  | text (s : String)
  | thinking (s : String)
  | toolUse (id : String) (name : String) (input : List (String × Arg))
  | toolResult (tool_use_id : String) (content : String)
deriving Repr

/-- One turn of the conversation: a role and its content blocks. -/
structure Turn where
  role : Role
  content : List ContentBlock
deriving Repr

/-- One content block as it arrives over the streaming connection: a text
block is the list of its `text_delta` fragments (the final message
accumulates them), other blocks stream no text deltas. -/
inductive StreamedBlock
  | text (deltas : List String)
  | thinking (s : String)
  | toolUse (id : String) (name : String) (input : List (String × Arg))
deriving Repr

/-- The content block recorded in `get_final_message` for a streamed
block. -/
def StreamedBlock.toBlock : StreamedBlock → ContentBlock
  | .text ds => .text (strConcat ds)
  | .thinking s => .thinking s
  | .toolUse i n inp => .toolUse i n inp

/-- Events `stream_chat` yields to its caller. -/
inductive Event
  | status (s : String)
  | text (s : String)
  | done
  | error (s : String)
deriving DecidableEq, Repr

/-- An event that streaming can yield before the stream is finished (the
`content_block_start` / `content_block_delta` handlers only ever yield
`status` and `text`). -/
inductive PartialEv
  | status (s : String)
  | text (s : String)
deriving Repr

/-- Embed a partial event into the event type. -/
def PartialEv.toEvent : PartialEv → Event
  | .status s => .status s
  | .text s => .text s

/-- An observable step of the loop: yielding an event, or executing one
capability (tool) handler. -/
inductive Action
  | emit (e : Event)
  | exec (name : String) (input : List (String × Arg))
deriving Repr

/-- One reasoning-engine call, as the loop observes it: either the call
raises (after yielding the events already produced from the partial
stream), or it completes with streamed content blocks and a stop reason. -/
inductive EngineResponse
  | fault (pre : List PartialEv)
  | ok (blocks : List StreamedBlock) (stop : Option String)
deriving Repr

/-- The actions yielded while one content block streams: a `status` event
at `content_block_start` of a `tool_use` block, a `text` event per
`text_delta` of a `text` block, nothing for a `thinking` block. -/
def StreamedBlock.acts : StreamedBlock → List Action
  | .text ds => ds.map fun d => Action.emit (Event.text d)
  | .thinking _ => []
  | .toolUse _ name _ => [Action.emit (Event.status (statusFor name))]

/-- The actions yielded while a whole engine response streams. -/
def streamActs (blocks : List StreamedBlock) : List Action :=
  blocks.flatMap StreamedBlock.acts

/-- The error text yielded when the engine call raises. -/
def engineFaultText : String :=
  "Flight Watch encountered a system error. Please try again or contact 1-800-WX-BRIEF."

/-- The `for block in content_blocks` loop of the `tool_use` branch:
executes each `tool_use` block in order and collects one `tool_result`
block per request, carrying the executed tool actions alongside. -/
def buildToolResults (env : Env) : List ContentBlock → List Action × List ContentBlock
  | [] => ([], [])
  | .toolUse id name input :: bs =>
      let result := (_execute_tool env name input).1
      let rest := buildToolResults env bs
      (Action.exec name input :: rest.1,
       ContentBlock.toolResult id result :: rest.2)
  | _ :: bs => buildToolResults env bs

/-- The agentic `while True` loop of `stream_chat`, driven by a finite
script of engine responses. Returns `none` when the script is exhausted
while the loop still wants to call the engine again; otherwise the ordered
actions (events and tool executions) and the final conversation history. -/
def runLoop (env : Env) : List EngineResponse → List Turn →
    Option (List Action × List Turn)
  | [], _ => none
  | .fault pre :: _, history =>
      some (pre.map (fun p => Action.emit p.toEvent)
        ++ [Action.emit (Event.error engineFaultText)], history)
  | .ok blocks stop :: rest, history =>
      let content := blocks.map StreamedBlock.toBlock
      let h1 := history ++ [Turn.mk Role.assistant content]
      if stop = some "end_turn" then
        some (streamActs blocks ++ [Action.emit Event.done], h1)
      else if stop = some "tool_use" then
        let er := buildToolResults env content
        match runLoop env rest (h1 ++ [Turn.mk Role.user er.2]) with
        | none => none
        | some (acts, h) => some (streamActs blocks ++ er.1 ++ acts, h)
      else
        some (streamActs blocks
          ++ [Action.emit (Event.error ("Unexpected stop reason: "
                ++ stop.getD "None"))], h1)

/-! ## briefer.py — session store and stream_chat entry -/

/-- `_sessions`: the server-side session storage, keyed by session id. -/
def Store : Type := List (String × List Turn)

/-- `_sessions[session_id] = v` (replace the binding, or add it). -/
def storeSet (s : Store) (sid : String) (v : List Turn) : Store :=
  match s with
  | [] => [(sid, v)]
  | (k, h) :: rest =>
      if k = sid then (k, v) :: rest else (k, h) :: storeSet rest sid v

/-- `get_history(session_id)` from briefer.py: creates an empty history on
first use. Returns the history together with the updated store. -/
def get_history (sessions : Store) (session_id : String) :
    List Turn × Store :=
  match List.lookup session_id sessions with
  | some h => (h, sessions)
  | none => ([], storeSet sessions session_id [])

/-- `reset_session(session_id)` from briefer.py. -/
def reset_session (sessions : Store) (session_id : String) : Store :=
  storeSet sessions session_id []

/-- The user message text after the optional flight-context prefix of
`stream_chat` is applied. -/
def contextMessage (user_message aircraft departure : String) : String :=
  if !aircraft.isEmpty || !departure.isEmpty then
    let parts := (if !departure.isEmpty then
        ["Departure airport: " ++ pyUpper departure] else [])
      ++ (if !aircraft.isEmpty then ["Aircraft: " ++ aircraft] else [])
    "[Flight context: " ++ String.intercalate "; " parts ++ "]\n\n" ++ user_message
  else user_message

/-- `stream_chat(session_id, user_message, aircraft, departure)` from
briefer.py: appends the (possibly prefixed) user message to the session
history and runs the agentic loop; returns its actions and the updated
session store. -/
def stream_chat (env : Env) (script : List EngineResponse) (sessions : Store)
    (session_id user_message aircraft departure : String) :
    Option (List Action × Store) :=
  let hs := get_history sessions session_id
  let msg := contextMessage user_message aircraft departure
  let h1 := hs.1 ++ [Turn.mk Role.user [ContentBlock.text msg]]
  match runLoop env script h1 with
  | none => none
  | some (acts, h) => some (acts, storeSet hs.2 session_id h)

/-! ## Observations on action traces and transcripts -/

/-- Is this action the `done` event? -/
def Action.isDone : Action → Bool
  | .emit .done => true
  | _ => false

/-- Is this action an `error` event? -/
def Action.isErr : Action → Bool
  | .emit (.error _) => true
  | _ => false

/-- Is this action a `status` event? -/
def Action.isStatus : Action → Bool
  | .emit (.status _) => true
  | _ => false

/-- Is this action the execution of a capability handler? -/
def Action.isExec : Action → Bool
  | .exec _ _ => true
  | _ => false

/-- Is this action an emitted event (as opposed to a tool execution)? -/
def Action.isEmit : Action → Bool
  | .emit _ => true
  | _ => false

/-- Number of `done` events in a trace. -/
def countDone (l : List Action) : Nat := (l.filter Action.isDone).length

/-- Number of `error` events in a trace. -/
def countErr (l : List Action) : Nat := (l.filter Action.isErr).length

/-- Number of `status` events in a trace. -/
def countStatus (l : List Action) : Nat := (l.filter Action.isStatus).length

/-- The payload of a `text` event, if this action is one. -/
def Action.textPayload : Action → Option String
  | .emit (.text s) => some s
  | _ => none

/-- Concatenation of the payloads of all `text` events in a trace. -/
def textConcat (l : List Action) : String :=
  strConcat (l.filterMap Action.textPayload)

/-- The text payload of a content block, if it is a plain text block. -/
def blockTextOf : ContentBlock → Option String
  | ContentBlock.text s => some s
  | _ => none

/-- The request identifier of a content block, if it is a Capability
Request (`tool_use`) block. -/
def reqIdOf : ContentBlock → Option String
  | ContentBlock.toolUse i _ _ => some i
  | _ => none

/-- The answered request identifier of a content block, if it is a
Capability Result (`tool_result`) block. -/
def resIdOf : ContentBlock → Option String
  | ContentBlock.toolResult i _ => some i
  | _ => none

/-- The text of a turn: the concatenation of its plain text blocks. -/
def turnText (t : Turn) : String :=
  strConcat (t.content.filterMap blockTextOf)

/-- Concatenated text of all assistant-role turns of a transcript. -/
def assistantText (ts : List Turn) : String :=
  strConcat ((ts.filter fun t => t.role = Role.assistant).map turnText)

/-- The request identifiers of the Capability Request (`tool_use`) blocks
of a content list, in order. -/
def requestIds (c : List ContentBlock) : List String :=
  c.filterMap reqIdOf

/-- The request identifiers answered by the Capability Result
(`tool_result`) blocks of a content list, in order. -/
def resultIds (c : List ContentBlock) : List String :=
  c.filterMap resIdOf

/-- Is this content block a Capability Result block? -/
def ContentBlock.isToolResult : ContentBlock → Bool
  | .toolResult _ _ => true
  | _ => false

/-- Modelled from the spec (§4.5, claim C5): "the full final-answer text
(the text of the final assistant answer)" — the text of the last
assistant-role turn of the transcript. -/
def finalAssistantAnswerText (ts : List Turn) : String :=
  match (ts.filter fun t => t.role = Role.assistant).getLast? with
  | some t => turnText t
  | none => ""

/-- Modelled from the spec (§4.5, claim C6): "a status event is emitted
once per capability immediately before it executes" — every `status`
event in the trace is immediately followed by a capability execution. -/
def statusImmediatelyBeforeExec (t : List Action) : Bool :=
  (List.range t.length).all fun i =>
    match t.get? i with
    | some (Action.emit (Event.status _)) =>
        match t.get? (i + 1) with
        | some (Action.exec _ _) => true
        | _ => false
    | _ => true

/-! ## Concrete oracles used by witnesses and counterexamples -/

/-- An environment whose every HTTP request succeeds with an empty JSON
array body and whose JSON parser always fails. -/
def env0 : Env :=
  { http := fun _ => HttpOutcome.success "[]"
    jsonLoads := fun _ => Except.error "parse failure" }

/-- An environment whose every HTTP request times out. -/
def envTimeout : Env :=
  { http := fun _ => HttpOutcome.timeout
    jsonLoads := fun _ => Except.error "parse failure" }

/-- Is this exception a `TypeError`? -/
def PyErr.isTypeError : PyErr → Bool
  | .typeError _ => true
  | _ => false

/-- A Python computation whose every recorded HTTP request carries the
bounded wait `TIMEOUT`, whenever the incoming log already does. -/
def ReqsBounded {α : Type} (m : PyM α) : Prop :=
  ∀ log, (∀ r ∈ log, r.timeoutSec = TIMEOUT) →
    ∀ r ∈ (runPy m log).2, r.timeoutSec = TIMEOUT

/-! ## Helper lemmas -/

theorem strConcat_append (a b : List String) :
    strConcat (a ++ b) = strConcat a ++ strConcat b := by
  induction a with
  | nil => simp [strConcat]
  | cons x xs ih => simp [strConcat, ih, String.append_assoc]

theorem countDone_append (a b : List Action) :
    countDone (a ++ b) = countDone a + countDone b := by
  simp [countDone, List.filter_append]

theorem countErr_append (a b : List Action) :
    countErr (a ++ b) = countErr a + countErr b := by
  simp [countErr, List.filter_append]

theorem countStatus_append (a b : List Action) :
    countStatus (a ++ b) = countStatus a + countStatus b := by
  simp [countStatus, List.filter_append]

theorem textConcat_append (a b : List Action) :
    textConcat (a ++ b) = textConcat a ++ textConcat b := by
  simp [textConcat, List.filterMap_append, strConcat_append]

theorem assistantText_append (a b : List Turn) :
    assistantText (a ++ b) = assistantText a ++ assistantText b := by
  simp [assistantText, List.filter_append, strConcat_append]

theorem streamActs_cons (b : StreamedBlock) (bs : List StreamedBlock) :
    streamActs (b :: bs) = b.acts ++ streamActs bs := by
  simp [streamActs]

theorem acts_countDone (b : StreamedBlock) : countDone b.acts = 0 := by
  cases b with
  | text ds =>
      induction ds with
      | nil => rfl
      | cons d ds ih =>
          simp [StreamedBlock.acts, countDone, List.filter, Action.isDone]
  | thinking s => rfl
  | toolUse i n inp => rfl

theorem acts_countErr (b : StreamedBlock) : countErr b.acts = 0 := by
  cases b with
  | text ds =>
      induction ds with
      | nil => rfl
      | cons d ds ih =>
          simp [StreamedBlock.acts, countErr, List.filter, Action.isErr]
  | thinking s => rfl
  | toolUse i n inp => rfl

theorem acts_countStatus (b : StreamedBlock) :
    countStatus b.acts = (requestIds [b.toBlock]).length := by
  cases b with
  | text ds =>
      simp only [StreamedBlock.toBlock, requestIds, List.filterMap, reqIdOf,
        List.length_nil]
      induction ds with
      | nil => rfl
      | cons d ds ih =>
          simp [StreamedBlock.acts, countStatus, List.filter, Action.isStatus]
  | thinking s => rfl
  | toolUse i n inp => rfl

theorem acts_text (b : StreamedBlock) :
    textConcat b.acts
      = strConcat ([b.toBlock].filterMap blockTextOf) := by
  cases b with
  | text ds =>
      simp only [StreamedBlock.toBlock, List.filterMap, blockTextOf, strConcat]
      induction ds with
      | nil => rfl
      | cons d ds ih =>
          simp only [StreamedBlock.acts, List.map, textConcat, List.filterMap,
            Action.textPayload, strConcat] at ih ⊢
          rw [ih]
          simp [String.append_assoc]
  | thinking s => rfl
  | toolUse i n inp => rfl

theorem acts_allEmit (b : StreamedBlock) : b.acts.all Action.isEmit = true := by
  cases b with
  | text ds =>
      induction ds with
      | nil => rfl
      | cons d ds ih =>
          simp [StreamedBlock.acts, List.all, Action.isEmit]
  | thinking s => rfl
  | toolUse i n inp => rfl

theorem streamActs_countDone (blocks : List StreamedBlock) :
    countDone (streamActs blocks) = 0 := by
  induction blocks with
  | nil => rfl
  | cons b bs ih =>
      rw [streamActs_cons, countDone_append, acts_countDone, ih]

theorem streamActs_countErr (blocks : List StreamedBlock) :
    countErr (streamActs blocks) = 0 := by
  induction blocks with
  | nil => rfl
  | cons b bs ih =>
      rw [streamActs_cons, countErr_append, acts_countErr, ih]

theorem streamActs_countStatus (blocks : List StreamedBlock) :
    countStatus (streamActs blocks)
      = (requestIds (blocks.map StreamedBlock.toBlock)).length := by
  induction blocks with
  | nil => rfl
  | cons b bs ih =>
      rw [streamActs_cons, countStatus_append, acts_countStatus, ih]
      have h2 : requestIds (StreamedBlock.toBlock b :: bs.map StreamedBlock.toBlock)
          = requestIds [b.toBlock] ++ requestIds (bs.map StreamedBlock.toBlock) := by
        cases hb : reqIdOf b.toBlock <;>
          simp [requestIds, List.filterMap_cons, hb]
      simp [h2]

theorem streamActs_text (blocks : List StreamedBlock) :
    textConcat (streamActs blocks)
      = turnText (Turn.mk Role.assistant (blocks.map StreamedBlock.toBlock)) := by
  induction blocks with
  | nil => rfl
  | cons b bs ih =>
      rw [streamActs_cons, textConcat_append, acts_text, ih]
      have h2 : (StreamedBlock.toBlock b :: bs.map StreamedBlock.toBlock).filterMap blockTextOf
          = [b.toBlock].filterMap blockTextOf
            ++ (bs.map StreamedBlock.toBlock).filterMap blockTextOf := by
        cases hb : blockTextOf b.toBlock <;>
          simp [List.filterMap_cons, hb]
      simp [turnText, h2, strConcat_append]

theorem streamActs_allEmit (blocks : List StreamedBlock) :
    (streamActs blocks).all Action.isEmit = true := by
  induction blocks with
  | nil => rfl
  | cons b bs ih =>
      rw [streamActs_cons, List.all_append, acts_allEmit, ih]
      rfl

theorem buildToolResults_resultIds (env : Env) (c : List ContentBlock) :
    resultIds (buildToolResults env c).2 = requestIds c := by
  induction c with
  | nil => rfl
  | cons b bs ih =>
      cases b <;> simp_all [buildToolResults, resultIds, requestIds,
        List.filterMap_cons, resIdOf, reqIdOf]

theorem buildToolResults_length (env : Env) (c : List ContentBlock) :
    (buildToolResults env c).2.length = (requestIds c).length := by
  induction c with
  | nil => rfl
  | cons b bs ih =>
      cases b <;> simp_all [buildToolResults, requestIds,
        List.filterMap_cons, reqIdOf]

theorem buildToolResults_allResults (env : Env) (c : List ContentBlock) :
    (buildToolResults env c).2.all ContentBlock.isToolResult = true := by
  induction c with
  | nil => rfl
  | cons b bs ih =>
      cases b <;> simp_all [buildToolResults, ContentBlock.isToolResult]

theorem buildToolResults_allExec (env : Env) (c : List ContentBlock) :
    (buildToolResults env c).1.all Action.isExec = true := by
  induction c with
  | nil => rfl
  | cons b bs ih =>
      cases b <;> simp_all [buildToolResults, Action.isExec]

theorem buildToolResults_countDone (env : Env) (c : List ContentBlock) :
    countDone (buildToolResults env c).1 = 0 := by
  induction c with
  | nil => rfl
  | cons b bs ih =>
      cases b <;> simp_all [buildToolResults, countDone, List.filter, Action.isDone]

theorem buildToolResults_countErr (env : Env) (c : List ContentBlock) :
    countErr (buildToolResults env c).1 = 0 := by
  induction c with
  | nil => rfl
  | cons b bs ih =>
      cases b <;> simp_all [buildToolResults, countErr, List.filter, Action.isErr]

theorem buildToolResults_countStatus (env : Env) (c : List ContentBlock) :
    countStatus (buildToolResults env c).1 = 0 := by
  induction c with
  | nil => rfl
  | cons b bs ih =>
      cases b <;> simp_all [buildToolResults, countStatus, List.filter, Action.isStatus]

theorem buildToolResults_text (env : Env) (c : List ContentBlock) :
    textConcat (buildToolResults env c).1 = "" := by
  induction c with
  | nil => rfl
  | cons b bs ih =>
      cases b <;> simp_all [buildToolResults, textConcat, List.filterMap,
        Action.textPayload]

theorem preEmits_countDone (pre : List PartialEv) :
    countDone (pre.map fun p => Action.emit p.toEvent) = 0 := by
  induction pre with
  | nil => rfl
  | cons p ps ih =>
      cases p <;>
        simpa [countDone, List.filter, Action.isDone, PartialEv.toEvent] using ih

theorem preEmits_countErr (pre : List PartialEv) :
    countErr (pre.map fun p => Action.emit p.toEvent) = 0 := by
  induction pre with
  | nil => rfl
  | cons p ps ih =>
      cases p <;>
        simpa [countErr, List.filter, Action.isErr, PartialEv.toEvent] using ih

theorem getLast?_snoc {α : Type} (l : List α) (a : α) :
    (l ++ [a]).getLast? = some a := by
  rw [List.getLast?_append_cons]
  rfl

theorem countErr_errSingle (s : String) :
    countErr [Action.emit (Event.error s)] = 1 := rfl

theorem countDone_errSingle (s : String) :
    countDone [Action.emit (Event.error s)] = 0 := rfl

theorem countErr_doneSingle : countErr [Action.emit Event.done] = 0 := rfl

theorem countDone_doneSingle : countDone [Action.emit Event.done] = 1 := rfl

theorem assistantText_pair (c rc : List ContentBlock) :
    assistantText [Turn.mk Role.assistant c, Turn.mk Role.user rc]
      = turnText (Turn.mk Role.assistant c) := by
  simp [assistantText, List.filter, turnText, strConcat]

/-- Structure of every completed run of the agentic loop: the conversation
only grows, and the action trace ends in exactly one terminal event — a
single `done` and no `error` (in which case the emitted text is exactly
the text of the appended assistant turns), or a single `error` and no
`done`. -/
theorem runLoop_shape (env : Env) :
    ∀ (script : List EngineResponse) (hist : List Turn) (acts : List Action)
      (h : List Turn),
    runLoop env script hist = some (acts, h) →
    ∃ new, h = hist ++ new ∧
      ((countErr acts = 0 ∧ countDone acts = 1
          ∧ acts.getLast? = some (Action.emit Event.done)
          ∧ textConcat acts = assistantText new)
        ∨ (∃ s, countErr acts = 1 ∧ countDone acts = 0
          ∧ acts.getLast? = some (Action.emit (Event.error s)))) := by
  intro script
  induction script with
  | nil =>
      intro hist acts h hrun
      simp [runLoop] at hrun
  | cons r rest ih =>
      intro hist acts h hrun
      cases r with
      | fault pre =>
          simp only [runLoop, Option.some.injEq, Prod.mk.injEq] at hrun
          obtain ⟨ha, hh⟩ := hrun
          subst ha; subst hh
          refine ⟨[], by simp, Or.inr ⟨engineFaultText, ?_, ?_, ?_⟩⟩
          · rw [countErr_append, preEmits_countErr, countErr_errSingle]
          · rw [countDone_append, preEmits_countDone, countDone_errSingle]
          · exact getLast?_snoc _ _
      | ok blocks stop =>
          simp only [runLoop] at hrun
          split_ifs at hrun with h1 h2
          · -- end_turn
            simp only [Option.some.injEq, Prod.mk.injEq] at hrun
            obtain ⟨ha, hh⟩ := hrun
            subst ha; subst hh
            refine ⟨[Turn.mk Role.assistant (blocks.map StreamedBlock.toBlock)],
              rfl, Or.inl ⟨?_, ?_, ?_, ?_⟩⟩
            · rw [countErr_append, streamActs_countErr, countErr_doneSingle]
            · rw [countDone_append, streamActs_countDone, countDone_doneSingle]
            · exact getLast?_snoc _ _
            · rw [textConcat_append, streamActs_text]
              simp [assistantText, List.filter, textConcat, List.filterMap,
                Action.textPayload, strConcat]
          · -- tool_use
            cases hrec : runLoop env rest
                (hist ++ [Turn.mk Role.assistant (blocks.map StreamedBlock.toBlock)]
                  ++ [Turn.mk Role.user
                    (buildToolResults env (blocks.map StreamedBlock.toBlock)).2]) with
            | none => rw [hrec] at hrun; exact absurd hrun (by simp)
            | some p =>
                obtain ⟨tacts, th⟩ := p
                rw [hrec] at hrun
                simp only [Option.some.injEq, Prod.mk.injEq] at hrun
                obtain ⟨ha, hh⟩ := hrun
                subst ha; subst hh
                obtain ⟨new2, hnew2, hbranch⟩ := ih _ _ _ hrec
                have htne : tacts ≠ [] := by
                  intro hnil
                  rcases hbranch with ⟨_, _, hl, _⟩ | ⟨_, _, _, hl⟩ <;>
                    (subst hnil; simp at hl)
                refine ⟨[Turn.mk Role.assistant (blocks.map StreamedBlock.toBlock),
                    Turn.mk Role.user
                      (buildToolResults env (blocks.map StreamedBlock.toBlock)).2]
                    ++ new2, by simp [hnew2], ?_⟩
                rcases hbranch with ⟨he, hd, hl, ht⟩ | ⟨s, he, hd, hl⟩
                · refine Or.inl ⟨?_, ?_, ?_, ?_⟩
                  · simp [countErr_append, streamActs_countErr,
                      buildToolResults_countErr, he]
                  · simp [countDone_append, streamActs_countDone,
                      buildToolResults_countDone, hd]
                  · rw [List.append_assoc, List.getLast?_append_of_ne_nil _
                      (by simp [htne]), List.getLast?_append_of_ne_nil _ htne]
                    exact hl
                  · rw [textConcat_append, textConcat_append, streamActs_text,
                      buildToolResults_text, ht, assistantText_append,
                      assistantText_pair]
                    simp
                · refine Or.inr ⟨s, ?_, ?_, ?_⟩
                  · simp [countErr_append, streamActs_countErr,
                      buildToolResults_countErr, he]
                  · simp [countDone_append, streamActs_countDone,
                      buildToolResults_countDone, hd]
                  · rw [List.append_assoc, List.getLast?_append_of_ne_nil _
                      (by simp [htne]), List.getLast?_append_of_ne_nil _ htne]
                    exact hl
          · -- unexpected stop reason
            simp only [Option.some.injEq, Prod.mk.injEq] at hrun
            obtain ⟨ha, hh⟩ := hrun
            subst ha; subst hh
            refine ⟨[Turn.mk Role.assistant (blocks.map StreamedBlock.toBlock)],
              rfl, Or.inr ⟨"Unexpected stop reason: " ++ stop.getD "None", ?_, ?_, ?_⟩⟩
            · rw [countErr_append, streamActs_countErr, countErr_errSingle]
            · rw [countDone_append, streamActs_countDone, countDone_errSingle]
            · exact getLast?_snoc _ _

theorem lookup_storeSet (s : List (String × List Turn)) (sid : String)
    (v : List Turn) : List.lookup sid (storeSet s sid v) = some v := by
  induction s with
  | nil => simp [storeSet, List.lookup]
  | cons kv rest ih =>
      obtain ⟨k, hv⟩ := kv
      by_cases hk : k = sid
      · subst hk
        simp [storeSet, List.lookup]
      · have hne : (sid == k) = false := beq_eq_false_iff_ne.mpr (Ne.symm hk)
        simp [storeSet, hk, List.lookup, hne, ih]

/-! ## Claim theorems -/

/-- Claim C1: for every assistant turn the loop appends with Capability
Request blocks (an engine response with stop reason `tool_use`), the next
appended turn is a single user-role turn holding exactly one Capability
Result block per request — matched by request identifier, in the same
relative order — and this whole batch is appended before the recursive
engine call; only then does the loop continue. -/
theorem loop_c1_tool_batch (env : Env) (blocks : List StreamedBlock)
    (rest : List EngineResponse) (hist : List Turn) :
    (runLoop env (EngineResponse.ok blocks (some "tool_use") :: rest) hist
      = match runLoop env rest
            (hist ++ [Turn.mk Role.assistant (blocks.map StreamedBlock.toBlock)]
              ++ [Turn.mk Role.user
                  (buildToolResults env (blocks.map StreamedBlock.toBlock)).2]) with
        | none => none
        | some (acts, h) =>
            some (streamActs blocks
              ++ (buildToolResults env (blocks.map StreamedBlock.toBlock)).1
              ++ acts, h))
    ∧ resultIds (buildToolResults env (blocks.map StreamedBlock.toBlock)).2
        = requestIds (blocks.map StreamedBlock.toBlock)
    ∧ (buildToolResults env (blocks.map StreamedBlock.toBlock)).2.length
        = (requestIds (blocks.map StreamedBlock.toBlock)).length
    ∧ (buildToolResults env (blocks.map StreamedBlock.toBlock)).2.all
        ContentBlock.isToolResult = true := by
  refine ⟨?_, buildToolResults_resultIds env _, buildToolResults_length env _,
    buildToolResults_allResults env _⟩
  rfl

/-- Claim C2: when the reasoning-engine call raises before any streaming
begins, the loop emits exactly one `error` event, appends no assistant
turn, and leaves the conversation exactly as it was before the call. -/
theorem loop_c2_engine_fault (env : Env) (rest : List EngineResponse)
    (hist : List Turn) :
    runLoop env (EngineResponse.fault [] :: rest) hist
      = some ([Action.emit (Event.error engineFaultText)], hist) := rfl

/-- Claim C3: the event sequence emitted for one inbound message is finite
and ends in exactly one terminal event — one `done` and no `error`, or one
`error` (last, at most once, never followed by `done`) and no `done`. -/
theorem loop_c3_terminal (env : Env) (script : List EngineResponse)
    (sessions : List (String × List Turn))
    (session_id user_message aircraft departure : String)
    (acts : List Action) (store : List (String × List Turn))
    (hsc : stream_chat env script sessions session_id user_message aircraft
        departure = some (acts, store)) :
    (countErr acts = 0 ∧ countDone acts = 1
      ∧ acts.getLast? = some (Action.emit Event.done))
    ∨ (∃ s, countErr acts = 1 ∧ countDone acts = 0
      ∧ acts.getLast? = some (Action.emit (Event.error s))) := by
  simp only [stream_chat] at hsc
  cases hrun : runLoop env script
      ((get_history sessions session_id).1
        ++ [Turn.mk Role.user [ContentBlock.text
            (contextMessage user_message aircraft departure)]]) with
  | none => rw [hrun] at hsc; exact absurd hsc (by simp)
  | some p =>
      obtain ⟨lacts, lh⟩ := p
      rw [hrun] at hsc
      simp only [Option.some.injEq, Prod.mk.injEq] at hsc
      obtain ⟨ha, _⟩ := hsc
      subst ha
      obtain ⟨new, _, hshape⟩ := runLoop_shape env script _ _ _ hrun
      rcases hshape with ⟨he, hd, hl, _⟩ | ⟨s, he, hd, hl⟩
      · exact Or.inl ⟨he, hd, hl⟩
      · exact Or.inr ⟨s, he, hd, hl⟩

/-- Witness for C3: a concrete one-round conversation, with the terminal
structure evaluated on it. -/
theorem loop_c3_terminal_witness :
    stream_chat env0
        [EngineResponse.ok [StreamedBlock.text ["Hello"]] (some "end_turn")]
        [] "s1" "hi" "" ""
      = some ([Action.emit (Event.text "Hello"), Action.emit Event.done],
          [("s1", [Turn.mk Role.user [ContentBlock.text "hi"],
            Turn.mk Role.assistant [ContentBlock.text "Hello"]])])
    ∧ ((countErr [Action.emit (Event.text "Hello"), Action.emit Event.done] = 0
        ∧ countDone [Action.emit (Event.text "Hello"), Action.emit Event.done] = 1
        ∧ [Action.emit (Event.text "Hello"),
            Action.emit Event.done].getLast? = some (Action.emit Event.done))
      ∨ (∃ s, countErr [Action.emit (Event.text "Hello"), Action.emit Event.done] = 1
        ∧ countDone [Action.emit (Event.text "Hello"), Action.emit Event.done] = 0
        ∧ [Action.emit (Event.text "Hello"),
            Action.emit Event.done].getLast? = some (Action.emit (Event.error s)))) :=
  ⟨by rfl,
    loop_c3_terminal env0
      [EngineResponse.ok [StreamedBlock.text ["Hello"]] (some "end_turn")]
      [] "s1" "hi" "" ""
      [Action.emit (Event.text "Hello"), Action.emit Event.done]
      [("s1", [Turn.mk Role.user [ContentBlock.text "hi"],
        Turn.mk Role.assistant [ContentBlock.text "Hello"]])]
      (by rfl)⟩

/-- Counterexample to claim C5 as stated: in a run whose first engine
response carries a text block before its capability request, the streamed
`text` events include that intermediate text, so their concatenation is
not the text of the final assistant answer alone. -/
theorem loop_c5_counterexample :
    runLoop env0
        [EngineResponse.ok [StreamedBlock.text ["One moment. "],
            StreamedBlock.toolUse "t1" "get_sigmets" []] (some "tool_use"),
          EngineResponse.ok [StreamedBlock.text ["All clear."]] (some "end_turn")] []
      = some ([Action.emit (Event.text "One moment. "),
          Action.emit (Event.status "Checking SIGMETs…"),
          Action.exec "get_sigmets" [],
          Action.emit (Event.text "All clear."),
          Action.emit Event.done],
        [Turn.mk Role.assistant [ContentBlock.text "One moment. ",
            ContentBlock.toolUse "t1" "get_sigmets" []],
          Turn.mk Role.user [ContentBlock.toolResult "t1" "[]"],
          Turn.mk Role.assistant [ContentBlock.text "All clear."]])
    ∧ [Action.emit (Event.text "One moment. "),
        Action.emit (Event.status "Checking SIGMETs…"),
        Action.exec "get_sigmets" [],
        Action.emit (Event.text "All clear."),
        Action.emit Event.done].getLast? = some (Action.emit Event.done)
    ∧ ¬ (textConcat [Action.emit (Event.text "One moment. "),
          Action.emit (Event.status "Checking SIGMETs…"),
          Action.exec "get_sigmets" [],
          Action.emit (Event.text "All clear."),
          Action.emit Event.done]
        = finalAssistantAnswerText
            [Turn.mk Role.assistant [ContentBlock.text "One moment. ",
              ContentBlock.toolUse "t1" "get_sigmets" []],
            Turn.mk Role.user [ContentBlock.toolResult "t1" "[]"],
            Turn.mk Role.assistant [ContentBlock.text "All clear."]]) :=
  ⟨by rfl, rfl, by decide⟩

/-- Claim C5 as amended: for every run that ends with `done`, the
concatenation of the `text` event payloads equals the concatenated text of
all assistant turns appended during that run (including text streamed in
capability-request rounds), not of the final assistant turn alone. -/
theorem loop_c5_amended (env : Env) (script : List EngineResponse)
    (hist : List Turn) (acts : List Action) (h : List Turn)
    (hrun : runLoop env script hist = some (acts, h))
    (hdone : acts.getLast? = some (Action.emit Event.done)) :
    ∃ new, h = hist ++ new ∧ textConcat acts = assistantText new := by
  obtain ⟨new, hnew, hshape⟩ := runLoop_shape env script hist acts h hrun
  rcases hshape with ⟨_, _, _, ht⟩ | ⟨s, _, _, hl⟩
  · exact ⟨new, hnew, ht⟩
  · rw [hdone] at hl
    exact absurd hl (by simp)

/-- Witness for the amended C5: a concrete completed run with its text
accounting evaluated. -/
theorem loop_c5_amended_witness :
    runLoop env0 [EngineResponse.ok [StreamedBlock.text ["Hi"]] (some "end_turn")] []
      = some ([Action.emit (Event.text "Hi"), Action.emit Event.done],
          [Turn.mk Role.assistant [ContentBlock.text "Hi"]])
    ∧ [Action.emit (Event.text "Hi"),
        Action.emit Event.done].getLast? = some (Action.emit Event.done)
    ∧ ∃ new, [Turn.mk Role.assistant [ContentBlock.text "Hi"]] = [] ++ new
        ∧ textConcat [Action.emit (Event.text "Hi"), Action.emit Event.done]
          = assistantText new :=
  ⟨by rfl, rfl,
    loop_c5_amended env0
      [EngineResponse.ok [StreamedBlock.text ["Hi"]] (some "end_turn")] []
      [Action.emit (Event.text "Hi"), Action.emit Event.done]
      [Turn.mk Role.assistant [ContentBlock.text "Hi"]] (by rfl) rfl⟩

/-- Counterexample to claim C6 as stated: with two capability requests in
one assistant turn, both `status` events are emitted while the response
streams, before either capability executes — so a status event is not
emitted immediately before its own capability executes. -/
theorem loop_c6_counterexample :
    runLoop env0
        [EngineResponse.ok [StreamedBlock.toolUse "t1" "get_sigmets" [],
            StreamedBlock.toolUse "t2" "get_airmets" []] (some "tool_use"),
          EngineResponse.ok [StreamedBlock.text ["All clear."]] (some "end_turn")] []
      = some ([Action.emit (Event.status "Checking SIGMETs…"),
          Action.emit (Event.status "Checking AIRMETs…"),
          Action.exec "get_sigmets" [],
          Action.exec "get_airmets" [],
          Action.emit (Event.text "All clear."),
          Action.emit Event.done],
        [Turn.mk Role.assistant [ContentBlock.toolUse "t1" "get_sigmets" [],
            ContentBlock.toolUse "t2" "get_airmets" []],
          Turn.mk Role.user [ContentBlock.toolResult "t1" "[]",
            ContentBlock.toolResult "t2" "[]"],
          Turn.mk Role.assistant [ContentBlock.text "All clear."]])
    ∧ countStatus [Action.emit (Event.status "Checking SIGMETs…"),
        Action.emit (Event.status "Checking AIRMETs…"),
        Action.exec "get_sigmets" [],
        Action.exec "get_airmets" [],
        Action.emit (Event.text "All clear."),
        Action.emit Event.done] = 2
    ∧ statusImmediatelyBeforeExec [Action.emit (Event.status "Checking SIGMETs…"),
        Action.emit (Event.status "Checking AIRMETs…"),
        Action.exec "get_sigmets" [],
        Action.exec "get_airmets" [],
        Action.emit (Event.text "All clear."),
        Action.emit Event.done] = false :=
  ⟨by rfl, rfl, rfl⟩

/-- Claim C6 as amended: for every Capability Request block exactly one
`status` event is emitted, and all of them are emitted (while the response
streams) before any capability of that batch executes; for two requested
capabilities, exactly two `status` events precede the next engine call —
but each is not necessarily immediately before its own execution. -/
theorem loop_c6_amended (env : Env) (blocks : List StreamedBlock)
    (rest : List EngineResponse) (hist : List Turn) :
    (runLoop env (EngineResponse.ok blocks (some "tool_use") :: rest) hist
      = match runLoop env rest
            (hist ++ [Turn.mk Role.assistant (blocks.map StreamedBlock.toBlock)]
              ++ [Turn.mk Role.user
                  (buildToolResults env (blocks.map StreamedBlock.toBlock)).2]) with
        | none => none
        | some (acts, h) =>
            some (streamActs blocks
              ++ (buildToolResults env (blocks.map StreamedBlock.toBlock)).1
              ++ acts, h))
    ∧ countStatus (streamActs blocks)
        = (requestIds (blocks.map StreamedBlock.toBlock)).length
    ∧ (streamActs blocks).all Action.isEmit = true
    ∧ (buildToolResults env (blocks.map StreamedBlock.toBlock)).1.all
        Action.isExec = true
    ∧ countStatus (buildToolResults env (blocks.map StreamedBlock.toBlock)).1 = 0 :=
  ⟨rfl, streamActs_countStatus blocks, streamActs_allEmit blocks,
    buildToolResults_allExec env _, buildToolResults_countStatus env _⟩

/-- Counterexample to claim C7 as stated: on an unrecognized stop reason
the loop does append the assistant turn (before dispatching on the stop
reason), contrary to the claim that no turn is appended. -/
theorem loop_c7_counterexample :
    runLoop env0 [EngineResponse.ok [StreamedBlock.text ["hi"]] (some "max_tokens")] []
      = some ([Action.emit (Event.text "hi"),
          Action.emit (Event.error "Unexpected stop reason: max_tokens")],
        [Turn.mk Role.assistant [ContentBlock.text "hi"]])
    ∧ ¬ ([Turn.mk Role.assistant [ContentBlock.text "hi"]] = ([] : List Turn)) :=
  ⟨rfl, by simp⟩

/-- Claim C7 as amended: on a stop reason the loop does not recognize, it
first appends the assistant turn (as after every completed engine
response), then emits a single `error` event describing the unexpected
condition and stops — appending no capability-result turn and making no
further engine call; the rest of the script is never consumed, while the
conversation (including the newly appended turn) is retained. -/
theorem loop_c7_amended (env : Env) (blocks : List StreamedBlock)
    (stop : Option String) (rest : List EngineResponse) (hist : List Turn)
    (h1 : stop ≠ some "end_turn") (h2 : stop ≠ some "tool_use") :
    runLoop env (EngineResponse.ok blocks stop :: rest) hist
      = some (streamActs blocks
          ++ [Action.emit (Event.error ("Unexpected stop reason: "
              ++ stop.getD "None"))],
        hist ++ [Turn.mk Role.assistant (blocks.map StreamedBlock.toBlock)]) := by
  simp only [runLoop]
  rw [if_neg h1, if_neg h2]

/-- Witness for the amended C7: the `max_tokens` stop reason on a concrete
run. -/
theorem loop_c7_amended_witness :
    (some "max_tokens" : Option String) ≠ some "end_turn"
    ∧ (some "max_tokens" : Option String) ≠ some "tool_use"
    ∧ runLoop env0 [EngineResponse.ok [StreamedBlock.text ["hi"]] (some "max_tokens")] []
      = some (streamActs [StreamedBlock.text ["hi"]]
          ++ [Action.emit (Event.error ("Unexpected stop reason: "
              ++ (some "max_tokens" : Option String).getD "None"))],
        [] ++ [Turn.mk Role.assistant
          ([StreamedBlock.text ["hi"]].map StreamedBlock.toBlock)]) :=
  ⟨by decide, by decide,
    loop_c7_amended env0 [StreamedBlock.text ["hi"]] (some "max_tokens") [] []
      (by decide) (by decide)⟩

/-- Claim C9: for every session key, `reset` followed by `get` yields an
empty turn sequence; and `get` on a key never seen before creates and
returns an empty turn sequence. -/
theorem store_c9 (s : List (String × List Turn)) (sid : String) :
    (get_history (reset_session s sid) sid).1 = []
    ∧ (List.lookup sid s = none →
        (get_history s sid).1 = []
        ∧ List.lookup sid (get_history s sid).2 = some []) := by
  constructor
  · simp [get_history, reset_session, lookup_storeSet]
  · intro hfresh
    constructor
    · simp [get_history, hfresh]
    · simp [get_history, hfresh, lookup_storeSet]

/-- Witness for C9: a store that has never seen the key `fresh`. -/
theorem store_c9_witness :
    List.lookup "fresh"
        ([("old", [Turn.mk Role.user []])] : List (String × List Turn)) = none
    ∧ ((get_history [("old", [Turn.mk Role.user []])] "fresh").1 = []
      ∧ List.lookup "fresh"
          (get_history [("old", [Turn.mk Role.user []])] "fresh").2 = some []) :=
  ⟨rfl, (store_c9 [("old", [Turn.mk Role.user []])] "fresh").2 rfl⟩

/-- Claim C10: each station-list capability called with an empty list, and
the PIREP capability called with an empty station string, returns a
textual error observation and performs no HTTP request at all. -/
theorem weather_c10_empty_stations (env : Env) (d : Arg) :
    runPy (get_metar env (Arg.list [])) []
      = (Except.ok "Error: No station identifiers provided for METAR request.", [])
    ∧ runPy (get_taf env (Arg.list [])) []
      = (Except.ok "Error: No station identifiers provided for TAF request.", [])
    ∧ runPy (get_winds_aloft env (Arg.list [])) []
      = (Except.ok "Error: No station identifiers provided for winds aloft request.", [])
    ∧ runPy (get_pireps env (Arg.str "") d) []
      = (Except.ok "Error: No station identifier provided for PIREP request.", []) :=
  ⟨rfl, rfl, rfl, rfl⟩

/-- Claim C4: the capability executor is total and always returns a
textual observation — an unknown name yields an error naming the tool, a
`TypeError` (from argument binding or from inside the handler) yields an
invalid-arguments error naming the tool, any other fault raised by the
handler yields an unexpected-error observation naming the tool, and a
handler success is passed through unchanged. No exception ever leaves
`_execute_tool` (its result type is a plain string). -/
theorem executor_c4_normalizes (env : Env) (name : String)
    (input : List (String × Arg)) :
    (TOOL_FUNCTIONS.contains name = false →
      (_execute_tool env name input).1
        = "Error: Unknown tool " ++ sq ++ name ++ sq ++ ".")
    ∧ (∀ m log, TOOL_FUNCTIONS.contains name = true →
        runPy (runTool env name input) []
          = (Except.error (PyErr.typeError m), log) →
        (_execute_tool env name input).1
          = "Error: Invalid arguments for " ++ sq ++ name ++ sq ++ ": " ++ m)
    ∧ (∀ e log, TOOL_FUNCTIONS.contains name = true →
        runPy (runTool env name input) [] = (Except.error e, log) →
        e.isTypeError = false →
        (_execute_tool env name input).1
          = "Error: Unexpected error in " ++ sq ++ name ++ sq ++ ": "
            ++ e.toMessage)
    ∧ (∀ s log, TOOL_FUNCTIONS.contains name = true →
        runPy (runTool env name input) [] = (Except.ok s, log) →
        (_execute_tool env name input).1 = s) := by
  refine ⟨?_, ?_, ?_, ?_⟩
  · intro h
    have hm : ¬ (name ∈ TOOL_FUNCTIONS) := by simpa using h
    simp [_execute_tool, hm]
  · intro m log hc hrun
    have hm : name ∈ TOOL_FUNCTIONS := by simpa using hc
    simp [_execute_tool, hm, hrun]
  · intro e log hc hrun hnt
    have hm : name ∈ TOOL_FUNCTIONS := by simpa using hc
    cases e <;> simp_all [_execute_tool, PyErr.isTypeError]
  · intro s log hc hrun
    have hm : name ∈ TOOL_FUNCTIONS := by simpa using hc
    simp [_execute_tool, hm, hrun]

/-- Witness for C4: each of the four normalization branches evaluated on a
concrete input — an unregistered tool name, a missing required argument, a
handler-internal `AttributeError`, and a handler success. -/
theorem executor_c4_witness :
    (_execute_tool env0 "get_notams" []).1
      = "Error: Unknown tool " ++ sq ++ "get_notams" ++ sq ++ "."
    ∧ (_execute_tool env0 "get_metar" []).1
      = "Error: Invalid arguments for " ++ sq ++ "get_metar" ++ sq ++ ": "
        ++ ("get_metar() missing 1 required positional argument: "
          ++ sq ++ "stations" ++ sq)
    ∧ (_execute_tool env0 "get_metar" [("stations", Arg.list [Arg.int 1])]).1
      = "Error: Unexpected error in " ++ sq ++ "get_metar" ++ sq ++ ": "
        ++ (sq ++ "int" ++ sq ++ " object has no attribute " ++ sq ++ "upper" ++ sq)
    ∧ (_execute_tool env0 "get_sigmets" []).1 = "[]" :=
  ⟨(executor_c4_normalizes env0 "get_notams" []).1 (by rfl),
    (executor_c4_normalizes env0 "get_metar" []).2.1
      ("get_metar() missing 1 required positional argument: "
        ++ sq ++ "stations" ++ sq) [] (by rfl) (by rfl),
    (executor_c4_normalizes env0 "get_metar"
        [("stations", Arg.list [Arg.int 1])]).2.2.1
      (PyErr.attributeError
        (sq ++ "int" ++ sq ++ " object has no attribute " ++ sq ++ "upper" ++ sq))
      [] (by rfl) (by rfl) (by rfl),
    (executor_c4_normalizes env0 "get_sigmets" []).2.2.2 "[]"
      [awRequest "sigmet" [("format", Arg.str "json")]] (by rfl) (by rfl)⟩

theorem runPy_bind {α β : Type} (m : PyM α) (f : α → PyM β)
    (log : List Request) :
    runPy (m >>= f) log
      = match runPy m log with
        | (Except.ok a, l2) => runPy (f a) l2
        | (Except.error e, l2) => (Except.error e, l2) := rfl

theorem reqsBounded_pure {α : Type} (a : α) :
    ReqsBounded (pure a : PyM α) :=
  fun _ hlog r hr => hlog r hr

theorem reqsBounded_raise {α : Type} (e : PyErr) :
    ReqsBounded (pyRaise e : PyM α) :=
  fun _ hlog r hr => hlog r hr

theorem reqsBounded_doRequest (env : Env) (req : Request)
    (hreq : req.timeoutSec = TIMEOUT) : ReqsBounded (doRequest env req) := by
  intro log hlog r hr
  have hmem : r ∈ log ++ [req] := hr
  rcases List.mem_append.mp hmem with h | h
  · exact hlog r h
  · rw [List.mem_singleton.mp h]
    exact hreq

theorem reqsBounded_bind {α β : Type} {m : PyM α} {f : α → PyM β}
    (hm : ReqsBounded m) (hf : ∀ a, ReqsBounded (f a)) :
    ReqsBounded (m >>= f) := by
  intro log hlog r hr
  rw [runPy_bind] at hr
  cases hm2 : runPy m log with
  | mk res l2 =>
      rw [hm2] at hr
      have hl2 : ∀ q ∈ l2, q.timeoutSec = TIMEOUT := by
        intro q hq
        apply hm log hlog q
        rw [hm2]
        exact hq
      cases res with
      | ok a => exact hf a l2 hl2 r hr
      | error e => exact hl2 r hr

theorem reqsBounded_liftExcept {α : Type} (x : Except PyErr α) :
    ReqsBounded (liftExcept x) := by
  cases x with
  | ok a => exact reqsBounded_pure a
  | error e => exact reqsBounded_raise e

theorem reqsBounded_mapPyM {α β : Type} {f : α → PyM β}
    (hf : ∀ a, ReqsBounded (f a)) :
    ∀ xs : List α, ReqsBounded (mapPyM f xs) := by
  intro xs
  induction xs with
  | nil => exact reqsBounded_pure []
  | cons x xs ih =>
      simp only [mapPyM]
      exact reqsBounded_bind (hf x) fun b =>
        reqsBounded_bind ih fun bs => reqsBounded_pure (b :: bs)

theorem reqsBounded_get (env : Env) (endpoint : String)
    (params : List (String × Arg)) :
    ReqsBounded (_get env endpoint params) := by
  simp only [_get]
  refine reqsBounded_bind (reqsBounded_doRequest env _ rfl) fun out => ?_
  cases out with
  | success text =>
      dsimp only
      split <;> exact reqsBounded_pure _
  | _ => exact reqsBounded_pure _

theorem reqsBounded_nws_get (env : Env) (url : String) :
    ReqsBounded (_nws_get env url) := by
  simp only [_nws_get]
  refine reqsBounded_bind (reqsBounded_doRequest env _ rfl) fun out => ?_
  cases out with
  | success text =>
      dsimp only
      split <;> exact reqsBounded_pure _
  | _ => exact reqsBounded_pure _

theorem reqsBounded_pyUpperStrip (a : Arg) : ReqsBounded (pyUpperStrip a) := by
  cases a
  · exact reqsBounded_pure _
  · exact reqsBounded_raise _
  · exact reqsBounded_raise _

theorem reqsBounded_pyIter (a : Arg) : ReqsBounded (pyIter a) := by
  cases a
  · exact reqsBounded_pure _
  · exact reqsBounded_raise _
  · exact reqsBounded_pure _

theorem reqsBounded_jsonGetD (j : Json) (k : String) (dflt : Json) :
    ReqsBounded (jsonGetD j k dflt) := by
  cases j <;> first | exact reqsBounded_pure _ | exact reqsBounded_raise _

theorem reqsBounded_jsonGet (j : Json) (k : String) :
    ReqsBounded (jsonGet j k) :=
  reqsBounded_jsonGetD j k Json.null

theorem reqsBounded_jsonIndex0 (j : Json) : ReqsBounded (jsonIndex0 j) := by
  cases j with
  | arr xs =>
      cases xs with
      | nil => exact reqsBounded_raise _
      | cons x xs => exact reqsBounded_pure _
  | str s =>
      simp only [jsonIndex0]
      split
      · exact reqsBounded_raise _
      · exact reqsBounded_pure _
  | _ => exact reqsBounded_raise _

theorem reqsBounded_jsonSubscript (j : Json) (k : String) :
    ReqsBounded (jsonSubscript j k) := by
  cases j with
  | obj fs =>
      simp only [jsonSubscript]
      split
      · exact reqsBounded_pure _
      · exact reqsBounded_raise _
  | _ => exact reqsBounded_raise _

theorem reqsBounded_get_metar (env : Env) (stations : Arg) :
    ReqsBounded (get_metar env stations) := by
  simp only [get_metar]
  split
  · exact reqsBounded_pure _
  · exact reqsBounded_bind (reqsBounded_pyIter stations) fun elems =>
      reqsBounded_bind (reqsBounded_mapPyM reqsBounded_pyUpperStrip elems)
        fun parts => reqsBounded_get env _ _

theorem reqsBounded_get_taf (env : Env) (stations : Arg) :
    ReqsBounded (get_taf env stations) := by
  simp only [get_taf]
  split
  · exact reqsBounded_pure _
  · exact reqsBounded_bind (reqsBounded_pyIter stations) fun elems =>
      reqsBounded_bind (reqsBounded_mapPyM reqsBounded_pyUpperStrip elems)
        fun parts => reqsBounded_get env _ _

theorem reqsBounded_get_pireps (env : Env) (station distance_nm : Arg) :
    ReqsBounded (get_pireps env station distance_nm) := by
  simp only [get_pireps]
  split
  · exact reqsBounded_pure _
  · exact reqsBounded_bind (reqsBounded_pyUpperStrip station) fun idv =>
      reqsBounded_get env _ _

theorem reqsBounded_get_sigmets (env : Env) :
    ReqsBounded (get_sigmets env) :=
  reqsBounded_get env _ _

theorem reqsBounded_get_airmets (env : Env) :
    ReqsBounded (get_airmets env) :=
  reqsBounded_get env _ _

theorem reqsBounded_get_winds_aloft (env : Env) (stations : Arg) :
    ReqsBounded (get_winds_aloft env stations) := by
  simp only [get_winds_aloft]
  split
  · exact reqsBounded_pure _
  · exact reqsBounded_bind (reqsBounded_pyIter stations) fun elems =>
      reqsBounded_bind (reqsBounded_mapPyM reqsBounded_pyUpperStrip elems)
        fun parts => reqsBounded_get env _ _

theorem reqsBounded_get_afd (env : Env) (office : Arg) :
    ReqsBounded (get_area_forecast_discussion env office) := by
  simp only [get_area_forecast_discussion]
  refine reqsBounded_bind (reqsBounded_pyUpperStrip office) fun officeS => ?_
  refine reqsBounded_bind (reqsBounded_nws_get env _) fun product_list => ?_
  cases product_list with
  | inr s => exact reqsBounded_pure _
  | inl pl =>
      refine reqsBounded_bind (reqsBounded_jsonGetD pl _ _) fun graph => ?_
      dsimp only
      split
      · exact reqsBounded_pure _
      · refine reqsBounded_bind (reqsBounded_jsonIndex0 graph) fun g0 => ?_
        refine reqsBounded_bind (reqsBounded_jsonSubscript g0 _) fun pid => ?_
        refine reqsBounded_bind (reqsBounded_nws_get env _) fun product => ?_
        cases product with
        | inr s => exact reqsBounded_pure _
        | inl p =>
            refine reqsBounded_bind (reqsBounded_jsonGet p _) fun text => ?_
            dsimp only
            split <;> exact reqsBounded_pure _

theorem reqsBounded_get_extended (env : Env) (icao : Arg) :
    ReqsBounded (get_extended_forecast env icao) := by
  simp only [get_extended_forecast]
  refine reqsBounded_bind (reqsBounded_pyUpperStrip icao) fun icaoS => ?_
  refine reqsBounded_bind (reqsBounded_get env _ _) fun metar_raw => ?_
  dsimp only
  split
  · exact reqsBounded_pure _
  · split
    · exact reqsBounded_pure _
    · refine reqsBounded_bind (reqsBounded_jsonIndex0 _) fun m0 => ?_
      refine reqsBounded_bind (reqsBounded_jsonGet m0 _) fun lat => ?_
      refine reqsBounded_bind (reqsBounded_jsonGet m0 _) fun lon => ?_
      dsimp only
      split
      · exact reqsBounded_pure _
      · exact reqsBounded_pure _
      · refine reqsBounded_bind (reqsBounded_nws_get env _) fun points => ?_
        cases points with
        | inr s => exact reqsBounded_pure _
        | inl pj =>
            refine reqsBounded_bind (reqsBounded_jsonGetD pj _ _) fun props => ?_
            refine reqsBounded_bind (reqsBounded_jsonGetD props _ _) fun furl => ?_
            dsimp only
            split
            · exact reqsBounded_pure _
            · refine reqsBounded_bind (reqsBounded_nws_get env _) fun forecast => ?_
              cases forecast with
              | inr s => exact reqsBounded_pure _
              | inl fj =>
                  refine reqsBounded_bind (reqsBounded_jsonGetD fj _ _) fun props2 => ?_
                  refine reqsBounded_bind (reqsBounded_jsonGetD props2 _ _) fun periods => ?_
                  dsimp only
                  split <;> exact reqsBounded_pure _

theorem reqsBounded_callTool (env : Env) (name : String) (args : List Arg) :
    ReqsBounded (callTool env name args) := by
  unfold callTool
  split
  · exact reqsBounded_get_metar env _
  · exact reqsBounded_get_taf env _
  · exact reqsBounded_get_pireps env _ _
  · exact reqsBounded_get_sigmets env
  · exact reqsBounded_get_airmets env
  · exact reqsBounded_get_winds_aloft env _
  · exact reqsBounded_get_afd env _
  · exact reqsBounded_get_extended env _
  · exact reqsBounded_raise _

theorem reqsBounded_runTool (env : Env) (name : String)
    (input : List (String × Arg)) : ReqsBounded (runTool env name input) := by
  simp only [runTool]
  exact reqsBounded_bind (reqsBounded_liftExcept _) fun args =>
    reqsBounded_callTool env name args

/-- Claim C8: the bounded wait. `TIMEOUT` is 15 seconds; the requests
built by the two network gateways `_get` and `_nws_get` carry it; a
network timeout is converted into a textual error observation returned to
the caller (no exception, no hang); and every HTTP request recorded while
executing any capability carries the 15-second bound. -/
theorem weather_c8_bounded_wait (env : Env) (name : String)
    (input : List (String × Arg)) (endpoint : String)
    (params : List (String × Arg)) (url : String) (log : List Request) :
    TIMEOUT = 15
    ∧ (awRequest endpoint params).timeoutSec = 15
    ∧ (nwsRequest url).timeoutSec = 15
    ∧ runPy (_get envTimeout endpoint params) log
        = (Except.ok ("Error: Request to " ++ endpoint ++ " timed out after "
            ++ toString TIMEOUT ++ " seconds."), log ++ [awRequest endpoint params])
    ∧ runPy (_nws_get envTimeout url) log
        = (Except.ok (Sum.inr "Error: NWS API request timed out."),
            log ++ [nwsRequest url])
    ∧ ((_execute_tool env name input).2.all fun r => r.timeoutSec == 15) = true := by
  refine ⟨rfl, rfl, rfl, rfl, rfl, ?_⟩
  have hb := reqsBounded_runTool env name input
  have hnil : ∀ r ∈ ([] : List Request), r.timeoutSec = TIMEOUT := by simp
  have hlog : ∀ r ∈ (_execute_tool env name input).2, r.timeoutSec = TIMEOUT := by
    by_cases hc : name ∈ TOOL_FUNCTIONS
    · have h2 : (_execute_tool env name input).2
          = (runPy (runTool env name input) []).2 := by
        simp only [_execute_tool]
        rw [if_neg (by simpa using hc)]
        cases hrt : runPy (runTool env name input) [] with
        | mk res lg =>
            cases res with
            | ok s => simp
            | error e => cases e <;> simp
      rw [h2]
      exact hb [] hnil
    · have hcf : ¬ (name ∈ TOOL_FUNCTIONS) := hc
      simp [_execute_tool, hcf]
  rw [List.all_eq_true]
  intro r hr
  exact beq_iff_eq.mpr (hlog r hr)

end FlightBriefing
